import Mathlib

/-!
Verification of the interactive spatial editor of the SHS-Z2M presence-zones
configurator (src/drawingManager.js and src/radarCanvas.js), shallowly
embedded over exact rational arithmetic.  All coordinates are rationals
(sensor millimetres or canvas pixels); JS `Math.round` is modelled exactly as
round-half-up; the four map rotations 0/90/180/270 use the exact values of
cosine and sine at those angles.
-/

namespace PresenceZones

/-- A 2-D point (sensor mm or canvas px) with exact rational coordinates. -/
structure Pt where
  x : ℚ
  y : ℚ
  deriving DecidableEq, Repr

/-- JS `Math.round`: round half toward +infinity
    (`Math.round(0.5) = 1`, `Math.round(-0.5) = -0`). -/
def jround (q : ℚ) : ℤ := ⌊q + 1/2⌋

/-- `Math.round(v / 100) * 100` — the 100 mm grid snap used for zones and edges. -/
def snap100 (v : ℚ) : ℚ := (jround (v / 100) : ℚ) * 100

/-- `Math.round(v / 50) * 50` — the 50 mm grid snap used for furniture and
    entrance moves/resizes. -/
def snap50 (v : ℚ) : ℚ := (jround (v / 50) : ℚ) * 50

/-- `Math.max(lo, Math.min(hi, v))` — the clamp pattern used throughout. -/
def clamp (lo hi v : ℚ) : ℚ := max lo (min hi v)

/-- The session map rotation.  `setMapRotation` documents and only ever
    receives 0, 90, 180 or 270 degrees. -/
inductive Rot
  | r0
  | r90
  | r180
  | r270
  deriving DecidableEq, Repr

/-- Exact value of `Math.cos(rot * Math.PI / 180)` at the four rotations. -/
def Rot.c : Rot → ℚ
  | .r0 => 1
  | .r90 => 0
  | .r180 => -1
  | .r270 => 0

/-- Exact value of `Math.sin(rot * Math.PI / 180)` at the four rotations. -/
def Rot.s : Rot → ℚ
  | .r0 => 0
  | .r90 => 1
  | .r180 => 0
  | .r270 => -1

/-- The rotation angle in degrees, as the code stores it. -/
def Rot.deg : Rot → ℚ
  | .r0 => 0
  | .r90 => 90
  | .r180 => 180
  | .r270 => 270

/-- Canvas geometry established by `RadarCanvas.resize()`.
    `resize()` sets `canvas.width = canvas.height = size`; we keep the two
    fields separate and state squareness explicitly where a proof needs it. -/
structure Cfg where
  w : ℚ
  h : ℚ
  deriving DecidableEq, Repr

/-- `this.centerX = this.width / 2`. -/
def Cfg.centerX (c : Cfg) : ℚ := c.w / 2

/-- `this.centerY = this.height` — the sensor origin sits on the bottom edge. -/
def Cfg.centerY (c : Cfg) : ℚ := c.h

/-- `this.scaleX = this.width / (X_MAX - X_MIN)` with range ±3000 mm. -/
def Cfg.scaleX (c : Cfg) : ℚ := c.w / 6000

/-- `this.scaleY = this.height / (Y_MAX - Y_MIN)` with range 0..6000 mm. -/
def Cfg.scaleY (c : Cfg) : ℚ := c.h / 6000

/-- `RadarCanvas.toCanvasX`. -/
def toCanvasX (c : Cfg) (x : ℚ) : ℚ := c.centerX + x * c.scaleX

/-- `RadarCanvas.toCanvasY` (Y inverted: sensor-far = screen-up). -/
def toCanvasY (c : Cfg) (y : ℚ) : ℚ := c.centerY - y * c.scaleY

/-- `RadarCanvas.toSensorX`. -/
def toSensorX (c : Cfg) (canvasX : ℚ) : ℚ := (canvasX - c.centerX) / c.scaleX

/-- `RadarCanvas.toSensorY`. -/
def toSensorY (c : Cfg) (canvasY : ℚ) : ℚ := (c.centerY - canvasY) / c.scaleY

/-- `DrawingManager.toCanvasCoords`: unrotated canvas position, then the same
    clockwise rotation about the canvas centre `(w/2, h/2)` that the canvas
    context applies when drawing zones. -/
def toCanvasCoords (c : Cfg) (r : Rot) (sensorX sensorY : ℚ) : Pt :=
  let ux := toCanvasX c sensorX
  let uy := toCanvasY c sensorY
  let cx := c.w / 2
  let cy := c.h / 2
  let co := r.c
  let si := r.s
  let dx := ux - cx
  let dy := uy - cy
  ⟨cx + dx * co - dy * si, cy + dx * si + dy * co⟩

/-- `DrawingManager.toSensorCoords`: undo the visual rotation (the source uses
    `angle = -rotation * Math.PI / 180`, so its `cos` is `Math.cos(-θ) = cos θ`
    and its `sin` is `Math.sin(-θ) = -sin θ`), then convert to sensor space. -/
def toSensorCoords (c : Cfg) (r : Rot) (canvasX canvasY : ℚ) : Pt :=
  let cx := c.w / 2
  let cy := c.h / 2
  let co := r.c
  let si := -r.s
  let dx := canvasX - cx
  let dy := canvasY - cy
  let ux := cx + dx * co - dy * si
  let uy := cy + dx * si + dy * co
  ⟨toSensorX c ux, toSensorY c uy⟩

/-- `RadarCanvas.transformSensorToRoom`: the explicit per-case remap applied
    only to live target markers (which are drawn outside the rotated canvas
    context). -/
def transformSensorToRoom (r : Rot) (p : Pt) : Pt :=
  match r with
  | .r0 => ⟨p.x, p.y⟩
  | .r90 => ⟨p.y - 3000, p.x + 3000⟩
  | .r180 => ⟨p.x, 6000 - p.y⟩
  | .r270 => ⟨-(p.y - 3000), -p.x + 3000⟩

/-- Display pixel of a live target in `drawTarget`:
    `transformSensorToRoom` followed by the plain scale `toCanvasX`/`toCanvasY`. -/
def targetCanvasPoint (c : Cfg) (r : Rot) (p : Pt) : Pt :=
  let t := transformSensorToRoom r p
  ⟨toCanvasX c t.x, toCanvasY c t.y⟩

/-- C2: the pointer-to-sensor map undoes the sensor-to-canvas map exactly. -/
theorem toSensorCoords_toCanvasCoords (c : Cfg) (hw : c.w ≠ 0) (hh : c.h ≠ 0)
    (r : Rot) (p : Pt) :
    toSensorCoords c r (toCanvasCoords c r p.x p.y).x (toCanvasCoords c r p.x p.y).y = p := by
  obtain ⟨w, h⟩ := c
  obtain ⟨x, y⟩ := p
  simp only [Cfg.w] at hw
  simp only [Cfg.h] at hh
  cases r <;>
    · simp only [toSensorCoords, toCanvasCoords, toCanvasX, toCanvasY, toSensorX, toSensorY,
        Cfg.centerX, Cfg.centerY, Cfg.scaleX, Cfg.scaleY, Rot.c, Rot.s, Pt.mk.injEq]
      constructor <;> · field_simp; ring

/-- C2 witness: concrete round trip on a 600×600 canvas at 90°. -/
theorem toSensorCoords_toCanvasCoords_witness :
    (⟨600, 600⟩ : Cfg).w ≠ 0 ∧ (⟨600, 600⟩ : Cfg).h ≠ 0 ∧
    toSensorCoords ⟨600, 600⟩ .r90
      (toCanvasCoords ⟨600, 600⟩ .r90 (1000 : ℚ) (2000 : ℚ)).x
      (toCanvasCoords ⟨600, 600⟩ .r90 (1000 : ℚ) (2000 : ℚ)).y = ⟨1000, 2000⟩ :=
  ⟨by norm_num, by norm_num,
    toSensorCoords_toCanvasCoords ⟨600, 600⟩ (by norm_num) (by norm_num) .r90 ⟨1000, 2000⟩⟩

/-- C3 counterexample: on the square 600×600 canvas at 90° rotation the live
    target path and the zone path send sensor point (1000, 2000) to different
    display pixels ((200, 200) versus (200, 400)). -/
theorem target_zone_paths_differ :
    targetCanvasPoint ⟨600, 600⟩ .r90 ⟨1000, 2000⟩ ≠
      toCanvasCoords ⟨600, 600⟩ .r90 1000 2000 := by
  simp only [targetCanvasPoint, transformSensorToRoom, toCanvasCoords, toCanvasX, toCanvasY,
    Cfg.centerX, Cfg.centerY, Cfg.scaleX, Cfg.scaleY, Rot.c, Rot.s, ne_eq, Pt.mk.injEq]
  norm_num

/-- C3 amended: on a square canvas the two rotation conventions coincide at
    rotation 0, and at 90/180/270 the live-target path equals the zone path
    applied to the X-mirrored point (-x, y) — so away from the sensor axis
    x = 0 they disagree. -/
theorem target_vs_zone_paths (c : Cfg) (hsq : c.w = c.h) (p : Pt) :
    targetCanvasPoint c .r0 p = toCanvasCoords c .r0 p.x p.y ∧
    targetCanvasPoint c .r90 p = toCanvasCoords c .r90 (-p.x) p.y ∧
    targetCanvasPoint c .r180 p = toCanvasCoords c .r180 (-p.x) p.y ∧
    targetCanvasPoint c .r270 p = toCanvasCoords c .r270 (-p.x) p.y := by
  obtain ⟨w, h⟩ := c
  obtain ⟨x, y⟩ := p
  simp only [Cfg.w, Cfg.h] at hsq
  subst hsq
  refine ⟨?_, ?_, ?_, ?_⟩ <;>
    · simp only [targetCanvasPoint, transformSensorToRoom, toCanvasCoords, toCanvasX, toCanvasY,
        Cfg.centerX, Cfg.centerY, Cfg.scaleX, Cfg.scaleY, Rot.c, Rot.s, Pt.mk.injEq]
      constructor <;> ring

/-- C3 amended witness: the mirror relation evaluated on the square 600×600
    canvas at the concrete point (1000, 2000). -/
theorem target_vs_zone_paths_witness :
    (⟨600, 600⟩ : Cfg).w = (⟨600, 600⟩ : Cfg).h ∧
    targetCanvasPoint ⟨600, 600⟩ .r90 ⟨1000, 2000⟩ =
      toCanvasCoords ⟨600, 600⟩ .r90 (-(1000 : ℚ)) 2000 :=
  ⟨rfl, (target_vs_zone_paths ⟨600, 600⟩ rfl ⟨1000, 2000⟩).2.1⟩

/-! ## Shape registry data model (state.zones.zones / state.annotations) -/

/-- A zone slot: `{enabled, shapeType, x1, y1, x2, y2, vertices, zoneType}`.
    `zoneType` is `none` when the JS field is absent/null (falsy). -/
structure Zone where
  enabled : Bool
  shapeType : String
  x1 : ℚ
  y1 : ℚ
  x2 : ℚ
  y2 : ℚ
  vertices : Option (List Pt)
  zoneType : Option String
  deriving DecidableEq, Repr

/-- A furniture item: `{id, type, x, y, rotation, width, height}`. -/
structure Furniture where
  fid : String
  ftype : String
  x : ℚ
  y : ℚ
  rotation : ℚ
  width : ℚ
  height : ℚ
  deriving DecidableEq, Repr

/-- An entrance: `{id, x, y, direction, label}` (as built by
    `handleEntrancePlacement`). -/
structure Entrance where
  eid : String
  x : ℚ
  y : ℚ
  direction : ℚ
  label : String
  deriving DecidableEq, Repr

/-- A room-boundary edge rectangle: `{id, x1, y1, x2, y2}`. -/
structure Edge where
  eid : String
  x1 : ℚ
  y1 : ℚ
  x2 : ℚ
  y2 : ℚ
  deriving DecidableEq, Repr

/-- Which bounding-box X field a resize handle updates (`updateX`). -/
inductive XField
  | X1
  | X2
  deriving DecidableEq, Repr

/-- Which bounding-box Y field a resize handle updates (`updateY`). -/
inductive YField
  | Y1
  | Y2
  deriving DecidableEq, Repr

/-- A resize-handle descriptor from the 8-entry handle tables:
    visual position in sensor coordinates plus the field(s) it updates. -/
structure HandleSpec where
  htype : String
  hx : ℚ
  hy : ℚ
  updateX : Option XField
  updateY : Option YField
  deriving DecidableEq, Repr

/-- `this.selectedHandle` after a pointer-down on a handle. -/
structure SelHandle where
  itemType : String
  htype : String
  updateX : Option XField
  updateY : Option YField
  deriving DecidableEq, Repr

/-- The DrawingManager state the claims are about: the shared registry plus the
    selection indices and gesture flags. -/
structure DState where
  zones : List Zone
  furniture : List Furniture
  entrances : List Entrance
  edges : List Edge
  selZone : Option Nat
  selFurn : Option Nat
  selEnt : Option Nat
  selEdge : Option Nat
  selectedHandle : Option SelHandle
  isDragging : Bool
  isDrawing : Bool
  mode : String
  startPoint : Option Pt
  currentPoint : Option Pt
  polygonVertices : List Pt
  dragOffset : Pt
  placingFurniture : Option String
  deriving DecidableEq, Repr

/-- In-place mutation of a list element, as JS assignment through
    `list[i].field = v` on an index the registry guarantees to be present. -/
def updateAt (l : List α) (i : Nat) (f : α → α) : List α :=
  match l[i]? with
  | some a => l.set i (f a)
  | none => l

/-- `resetDrawingState`: clears gesture state, preserves selection indices. -/
def resetDrawingState (s : DState) : DState :=
  { s with isDrawing := false, isDragging := false, startPoint := none,
           currentPoint := none, polygonVertices := [], selectedHandle := none }

/-- `setMode`: stores the mode then resets the gesture state. -/
def setMode (m : String) (s : DState) : DState :=
  resetDrawingState { s with mode := m }

/-- `clearOtherSelections(keepType)`: nulls every selection index whose type is
    not `keepType` (passing `none` clears all four). -/
def clearOtherSelections (keepType : Option String) (s : DState) : DState :=
  let s := if keepType ≠ some "zone" then { s with selZone := none } else s
  let s := if keepType ≠ some "furniture" then { s with selFurn := none } else s
  let s := if keepType ≠ some "entrance" then { s with selEnt := none } else s
  if keepType ≠ some "edge" then { s with selEdge := none } else s

/-! ## Zone slot allocation and hit tests -/

/-- Slot `i` exists and is disabled.  The app's registry always holds exactly
    three slots (main.js initialises `state.zones.zones` with three entries),
    so the out-of-range case never arises; a missing slot counts as taken. -/
def slotFree (zs : List Zone) (i : Nat) : Bool :=
  match zs[i]? with
  | some z => !z.enabled
  | none => false

/-- `getNextAvailableZoneSlot`: scan slots 0, 1, 2 for the first with
    `enabled: false`; `none` models the JS return value `-1`. -/
def getNextAvailableZoneSlot (zs : List Zone) : Option Nat :=
  if slotFree zs 0 then some 0
  else if slotFree zs 1 then some 1
  else if slotFree zs 2 then some 2
  else none

/-- `isPointInPolygon`: even-odd ray casting.  When `vi.y = vj.y` the JS `&&`
    short-circuits before the division; here the first conjunct is already
    false, so the (defaulted) division result is never relevant. -/
def isPointInPolygon (x y : ℚ) (vertices : List Pt) : Bool :=
  match vertices with
  | [] => false
  | v0 :: _ =>
    let pairs := vertices.zip (vertices.getLastD v0 :: vertices)
    pairs.foldl
      (fun inside vij =>
        let vi := vij.1
        let vj := vij.2
        if ((decide (vi.y > y)) != (decide (vj.y > y)))
            && decide (x < (vj.x - vi.x) * (y - vi.y) / (vj.y - vi.y) + vi.x)
        then !inside else inside)
      false

/-- The min/max rectangle bounds test in `isPointInZone`'s rectangle branch. -/
def rectHit (px py a1 b1 a2 b2 : ℚ) : Bool :=
  decide (min a1 a2 ≤ px ∧ px ≤ max a1 a2 ∧ min b1 b2 ≤ py ∧ py ≤ max b1 b2)

/-- `isPointInZone`: disabled zones never hit; polygon zones with a vertex
    list use ray casting, otherwise the normalized rectangle bounds test. -/
def isPointInZone (sensorX sensorY : ℚ) (z : Zone) : Bool :=
  if !z.enabled then false
  else
    match z.vertices with
    | some vs =>
      if z.shapeType = "polygon" then isPointInPolygon sensorX sensorY vs
      else rectHit sensorX sensorY z.x1 z.y1 z.x2 z.y2
    | none => rectHit sensorX sensorY z.x1 z.y1 z.x2 z.y2

/-- `isPointInEntrance`: 300 mm hit radius.  The source compares
    `Math.sqrt(dx²+dy²) <= 300`; both sides are nonnegative, so comparing the
    squares is equivalent and stays in ℚ. -/
def isPointInEntrance (sensorX sensorY : ℚ) (e : Entrance) : Bool :=
  decide ((sensorX - e.x) ^ 2 + (sensorY - e.y) ^ 2 ≤ 300 ^ 2)

/-- `isPointInEdge`: normalized rectangle bounds test. -/
def isPointInEdge (sensorX sensorY : ℚ) (e : Edge) : Bool :=
  decide (min e.x1 e.x2 ≤ sensorX ∧ sensorX ≤ max e.x1 e.x2 ∧
          min e.y1 e.y2 ≤ sensorY ∧ sensorY ≤ max e.y1 e.y2)

/-- `isPointInFurniture`: inverse-rotate the query point into the furniture's
    local frame, then the half-extent test.  `cosd`/`sind` stand for JS
    `Math.cos`/`Math.sin` of an angle given in degrees: their values at
    arbitrary angles are transcendental, so the embedding takes them as
    parameters; the source computes `Math.cos(-rotation)`. -/
def isPointInFurniture (cosd sind : ℚ → ℚ) (sensorX sensorY : ℚ) (f : Furniture) : Bool :=
  let halfW := f.width / 2
  let halfH := f.height / 2
  let co := cosd (-f.rotation)
  let si := sind (-f.rotation)
  let dx := sensorX - f.x
  let dy := sensorY - f.y
  let localX := dx * co - dy * si
  let localY := dx * si + dy * co
  decide (|localX| ≤ halfW ∧ |localY| ≤ halfH)

/-- Normalized corners of a zone or edge box (`getZoneCorners` and the inline
    copy in `getEdgeHandleAtPoint`). -/
structure Corners where
  x1 : ℚ
  y1 : ℚ
  x2 : ℚ
  y2 : ℚ
  deriving DecidableEq, Repr

/-- `getZoneCorners`. -/
def getZoneCorners (z : Zone) : Corners :=
  ⟨min z.x1 z.x2, min z.y1 z.y2, max z.x1 z.x2, max z.y1 z.y2⟩

/-- Normalized corners of an edge (inline min/max in `getEdgeHandleAtPoint`). -/
def edgeCorners (e : Edge) : Corners :=
  ⟨min e.x1 e.x2, min e.y1 e.y2, max e.x1 e.x2, max e.y1 e.y2⟩

/-- The identical 8-entry handle table built by both `getHandleAtPoint` and
    `getEdgeHandleAtPoint`: 4 visual corners + 4 edge midpoints, each naming
    the bounding-box field(s) it updates. -/
def handleTable (c : Corners) : List HandleSpec :=
  [ ⟨"nw", c.x1, c.y2, some .X1, some .Y2⟩,
    ⟨"ne", c.x2, c.y2, some .X2, some .Y2⟩,
    ⟨"sw", c.x1, c.y1, some .X1, some .Y1⟩,
    ⟨"se", c.x2, c.y1, some .X2, some .Y1⟩,
    ⟨"n", (c.x1 + c.x2) / 2, c.y2, none, some .Y2⟩,
    ⟨"s", (c.x1 + c.x2) / 2, c.y1, none, some .Y1⟩,
    ⟨"w", c.x1, (c.y1 + c.y2) / 2, some .X1, none⟩,
    ⟨"e", c.x2, (c.y1 + c.y2) / 2, some .X2, none⟩ ]

/-- Squared-distance form of `sqrt(dx²+dy²) <= r` (both sides nonnegative). -/
def withinRadius (ax ay bx by' r : ℚ) : Bool :=
  decide ((ax - bx) ^ 2 + (ay - by') ^ 2 ≤ r ^ 2)

/-- `getHandleAtPoint`: first of the 8 zone handles whose rotated canvas
    position lies within `handleSize = 10` px of the pointer.  Disabled and
    polygon zones expose no handles. -/
def getHandleAtPoint (c : Cfg) (r : Rot) (canvasX canvasY : ℚ) (z : Zone) :
    Option HandleSpec :=
  if !z.enabled || z.shapeType = "polygon" then none
  else
    (handleTable (getZoneCorners z)).find? fun hnd =>
      let hc := toCanvasCoords c r hnd.hx hnd.hy
      withinRadius canvasX canvasY hc.x hc.y 10

/-- `getEdgeHandleAtPoint`: same table over the edge's corners; guards a null
    edge (`if (!edge) return null`). -/
def getEdgeHandleAtPoint (c : Cfg) (r : Rot) (canvasX canvasY : ℚ) (e? : Option Edge) :
    Option HandleSpec :=
  match e? with
  | none => none
  | some e =>
    (handleTable (edgeCorners e)).find? fun hnd =>
      let hc := toCanvasCoords c r hnd.hx hnd.hy
      withinRadius canvasX canvasY hc.x hc.y 10

/-- `getFurnitureHandleAtPoint`: 4 corner handles in a frame rotated by
    `mapRotation + furniture.rotation`, hit radius `furnitureHandleSize + 4 =
    13` px; guards a null furniture.  Returns the handle type. -/
def getFurnitureHandleAtPoint (c : Cfg) (r : Rot) (cosd sind : ℚ → ℚ)
    (canvasX canvasY : ℚ) (f? : Option Furniture) : Option String :=
  match f? with
  | none => none
  | some f =>
    let center := toCanvasCoords c r f.x f.y
    let halfW := f.width * c.scaleX / 2
    let halfH := f.height * c.scaleY / 2
    let total := r.deg + f.rotation
    let co := cosd total
    let si := sind total
    let locals : List (String × ℚ × ℚ) :=
      [("nw", -halfW, -halfH), ("ne", halfW, -halfH),
       ("sw", -halfW, halfH), ("se", halfW, halfH)]
    (locals.find? fun t =>
      let hx := center.x + (t.2.1 * co - t.2.2 * si)
      let hy := center.y + (t.2.1 * si + t.2.2 * co)
      withinRadius canvasX canvasY hx hy 13).map (·.1)

/-! ## Draw gestures -/

/-- `handleRectangleMouseDown`: no free slot among 0..2 reports the capacity
    error through `onError` and touches nothing; otherwise the gesture starts.
    The second component is the message passed to the error sink, if any. -/
def handleRectangleMouseDown (s : DState) (sensorCoords : Pt) : DState × Option String :=
  match getNextAvailableZoneSlot s.zones with
  | none => (s, some "Maximum 3 zones. Delete one to add another.")
  | some _ =>
    ({ s with isDrawing := true, startPoint := some sensorCoords,
              currentPoint := some sensorCoords }, none)

/-- The registry write in `finishRectangle`'s commit branch. -/
def commitRectZone (z : Zone) (x1 y1 x2 y2 : ℚ) : Zone :=
  { z with enabled := true, shapeType := "rectangle",
           x1 := min x1 x2, y1 := min y1 y2, x2 := max x1 x2, y2 := max y1 y2,
           vertices := none,
           zoneType := if z.zoneType = none then some "detection" else z.zoneType }

/-- `finishRectangle`: snap both corners to the 100 mm grid, reject with the
    too-small error if either snapped dimension is below 200 mm, else commit
    into the free slot, select it and return to select mode.  `start` is
    `this.startPoint`, which is always set while `isDrawing`. -/
def finishRectangle (s : DState) (start sensorCoords : Pt) : DState × Option String :=
  match getNextAvailableZoneSlot s.zones with
  | none => (s, none)
  | some slot =>
    let x1 := snap100 start.x
    let y1 := snap100 start.y
    let x2 := snap100 sensorCoords.x
    let y2 := snap100 sensorCoords.y
    if |x2 - x1| < 200 ∨ |y2 - y1| < 200 then
      (resetDrawingState s, some "Zone too small. Minimum size is 200mm x 200mm.")
    else
      let zs := updateAt s.zones slot (fun z => commitRectZone z x1 y1 x2 y2)
      let s := resetDrawingState { s with zones := zs }
      let s := { s with selZone := some slot }
      (setMode "select" s, none)

/-- `handlePolygonClick`: capacity check, snap the click to the 100 mm grid,
    close the polygon when clicking within 300 mm of the first vertex with at
    least three vertices recorded, else append the vertex.  The Boolean
    records whether this click closed the polygon (calls `finishPolygon`). -/
def handlePolygonClick (s : DState) (sensorCoords : Pt) :
    DState × Option String × Bool :=
  match getNextAvailableZoneSlot s.zones with
  | none => (s, some "Maximum 3 zones. Delete one to add another.", false)
  | some _ =>
    let point : Pt := ⟨snap100 sensorCoords.x, snap100 sensorCoords.y⟩
    match s.polygonVertices with
    | first :: _ =>
      if s.polygonVertices.length ≥ 3 ∧
          (point.x - first.x) ^ 2 + (point.y - first.y) ^ 2 < 300 ^ 2 then
        (s, none, true)
      else
        ({ s with polygonVertices := s.polygonVertices ++ [point] }, none, false)
    | [] => ({ s with polygonVertices := s.polygonVertices ++ [point] }, none, false)

/-- `finishPolygon`: requires at least three recorded vertices (else the
    invalid-geometry error), commits the vertex list with the bounding box of
    the vertices, selects the slot and returns to select mode.  There is no
    minimum-dimension check on this path. -/
def finishPolygon (s : DState) : DState × Option String :=
  match getNextAvailableZoneSlot s.zones with
  | none => (s, none)
  | some slot =>
    match s.polygonVertices with
    | v :: vs =>
      if s.polygonVertices.length < 3 then
        (resetDrawingState s, some "Polygon needs at least 3 vertices.")
      else
        let minX := vs.foldl (fun a q => min a q.x) v.x
        let minY := vs.foldl (fun a q => min a q.y) v.y
        let maxX := vs.foldl (fun a q => max a q.x) v.x
        let maxY := vs.foldl (fun a q => max a q.y) v.y
        let zs := updateAt s.zones slot fun z =>
          { z with enabled := true, shapeType := "polygon",
                   vertices := some s.polygonVertices,
                   x1 := minX, y1 := minY, x2 := maxX, y2 := maxY,
                   zoneType := if z.zoneType = none then some "detection" else z.zoneType }
        let s := resetDrawingState { s with zones := zs }
        let s := { s with selZone := some slot }
        (setMode "select" s, none)
    | [] => (resetDrawingState s, some "Polygon needs at least 3 vertices.")

/-- `completeEdgeDrawing`: snap both corners to the 100 mm grid, silently
    discard the gesture if either dimension is below 100 mm, else append the
    normalized edge and return to select mode.  `start`/`cur` are
    `this.startPoint`/`this.currentPoint` (both set while drawing); `eid` is
    the generated `edge_${Date.now()}` identifier. -/
def completeEdgeDrawing (s : DState) (start cur : Pt) (eid : String) : DState :=
  let x1 := snap100 start.x
  let y1 := snap100 start.y
  let x2 := snap100 cur.x
  let y2 := snap100 cur.y
  if |x2 - x1| < 100 ∨ |y2 - y1| < 100 then
    resetDrawingState s
  else
    let e : Edge := ⟨eid, min x1 x2, min y1 y2, max x1 x2, max y1 y2⟩
    setMode "select" (resetDrawingState { s with edges := s.edges ++ [e] })

/-! ## Resize and move -/

/-- Assignment `zone[handle.updateX] = x`. -/
def setXField (x : ℚ) : Option XField → Zone → Zone
  | some .X1, z => { z with x1 := x }
  | some .X2, z => { z with x2 := x }
  | none, z => z

/-- Assignment `zone[handle.updateY] = y`. -/
def setYField (y : ℚ) : Option YField → Zone → Zone
  | some .Y1, z => { z with y1 := y }
  | some .Y2, z => { z with y2 := y }
  | none, z => z

/-- `resizeZone`: snap the pointer to the 100 mm grid, clamp to sensor range,
    and write the raw value into exactly the field(s) the active handle
    names — with no re-normalization of the box. -/
def resizeZone (z : Zone) (updX : Option XField) (updY : Option YField)
    (sensorCoords : Pt) : Zone :=
  let x := clamp (-3000) 3000 (snap100 sensorCoords.x)
  let y := clamp 0 6000 (snap100 sensorCoords.y)
  setYField y updY (setXField x updX z)

/-- Assignment `edge[handle.updateX] = x`. -/
def setEdgeXField (x : ℚ) : Option XField → Edge → Edge
  | some .X1, e => { e with x1 := x }
  | some .X2, e => { e with x2 := x }
  | none, e => e

/-- Assignment `edge[handle.updateY] = y`. -/
def setEdgeYField (y : ℚ) : Option YField → Edge → Edge
  | some .Y1, e => { e with y1 := y }
  | some .Y2, e => { e with y2 := y }
  | none, e => e

/-- `resizeEdge`: identical raw field write for edges. -/
def resizeEdge (e : Edge) (updX : Option XField) (updY : Option YField)
    (sensorCoords : Pt) : Edge :=
  let x := clamp (-3000) 3000 (snap100 sensorCoords.x)
  let y := clamp 0 6000 (snap100 sensorCoords.y)
  setEdgeYField y updY (setEdgeXField x updX e)

/-- `moveZone`: recompute the box around the dragged centre, clamp each side
    back into sensor range (shifting, never rescaling), snap all four fields. -/
def moveZone (z : Zone) (dragOffset sensorCoords : Pt) : Zone :=
  let corners := getZoneCorners z
  let centerX := sensorCoords.x - dragOffset.x
  let centerY := sensorCoords.y - dragOffset.y
  let halfWidth := (corners.x2 - corners.x1) / 2
  let halfHeight := (corners.y2 - corners.y1) / 2
  let newX1 := centerX - halfWidth
  let newX2 := centerX + halfWidth
  let newY1 := centerY - halfHeight
  let newY2 := centerY + halfHeight
  let p1 := if newX1 < -3000 then (-3000, -3000 + (corners.x2 - corners.x1)) else (newX1, newX2)
  let p2 := if p1.2 > 3000 then (3000 - (corners.x2 - corners.x1), 3000) else p1
  let q1 := if newY1 < 0 then (0, corners.y2 - corners.y1) else (newY1, newY2)
  let q2 := if q1.2 > 6000 then (6000 - (corners.y2 - corners.y1), 6000) else q1
  { z with x1 := snap100 p2.1, x2 := snap100 p2.2,
           y1 := snap100 q2.1, y2 := snap100 q2.2 }

/-- `moveEdge`: keep width/height, snap and clamp the new top-left corner,
    rebuild the opposite corner by adding the dimensions. -/
def moveEdge (e : Edge) (dragOffset sensorCoords : Pt) : Edge :=
  let width := |e.x2 - e.x1|
  let height := |e.y2 - e.y1|
  let newCenterX := sensorCoords.x - dragOffset.x
  let newCenterY := sensorCoords.y - dragOffset.y
  let halfW := width / 2
  let halfH := height / 2
  let newX1 := max (-3000) (min (3000 - width) (snap100 (newCenterX - halfW)))
  let newY1 := max 0 (min (6000 - height) (snap100 (newCenterY - halfH)))
  { e with x1 := newX1, y1 := newY1, x2 := newX1 + width, y2 := newY1 + height }

/-- `moveZoneToPosition` (explicit move mode): guard a missing or disabled
    zone, snap the target centre to the 100 mm grid, clamp the box back into
    range, keep the dimensions. -/
def moveZoneToPosition (z : Zone) (sensorCoords : Pt) : Zone :=
  if !z.enabled then z
  else
    let width := |z.x2 - z.x1|
    let height := |z.y2 - z.y1|
    let centerX := snap100 sensorCoords.x
    let centerY := snap100 sensorCoords.y
    let halfW := width / 2
    let halfH := height / 2
    let newX1 := max (-3000) (min (3000 - width) (centerX - halfW))
    let newY1 := max 0 (min (6000 - height) (centerY - halfH))
    { z with x1 := newX1, y1 := newY1, x2 := newX1 + width, y2 := newY1 + height }

/-! ## Placement -/

/-- `getFurnitureDefaultSize`: the per-type default (width, height) table. -/
def getFurnitureDefaultSize (t : String) : ℚ × ℚ :=
  if t = "chair" then (700, 700)
  else if t = "dining-chair" then (450, 450)
  else if t = "sofa" then (1800, 800)
  else if t = "bed" then (2000, 1500)
  else if t = "table" then (1200, 800)
  else if t = "desk" then (1400, 700)
  else if t = "bedside-table" then (500, 500)
  else if t = "cabinet" then (800, 500)
  else if t = "drawers" then (800, 500)
  else if t = "wardrobe" then (1200, 600)
  else if t = "tv" then (1400, 200)
  else if t = "speaker" then (400, 600)
  else if t = "fridge" then (700, 700)
  else if t = "radiator" then (1000, 200)
  else if t = "fan" then (500, 500)
  else if t = "window" then (1200, 200)
  else if t = "lamp" then (350, 350)
  else if t = "plant" then (400, 400)
  else (500, 500)

/-- `handleFurniturePlacement`: guarded by `state.canvas.placingFurniture`;
    commits the furniture at the pointer snapped to the **100 mm** grid, with
    initial rotation equal to the current map rotation and the type's default
    size.  `fid` is the generated `furniture_${Date.now()}` identifier. -/
def handleFurniturePlacement (s : DState) (r : Rot) (sensorCoords : Pt)
    (fid : String) : DState :=
  match s.placingFurniture with
  | none => s
  | some t =>
    let f : Furniture :=
      { fid := fid, ftype := t,
        x := snap100 sensorCoords.x, y := snap100 sensorCoords.y,
        rotation := r.deg,
        width := (getFurnitureDefaultSize t).1,
        height := (getFurnitureDefaultSize t).2 }
    { s with furniture := s.furniture ++ [f] }

/-- `handleEntrancePlacement`: commits the entrance at the pointer snapped to
    the **100 mm** grid with direction 0 and a generated label, then returns
    to select mode.  `eid` is the generated `entrance_${Date.now()}`
    identifier. -/
def handleEntrancePlacement (s : DState) (sensorCoords : Pt) (eid : String) : DState :=
  let e : Entrance :=
    { eid := eid,
      x := snap100 sensorCoords.x, y := snap100 sensorCoords.y,
      direction := 0,
      label := "Entry " ++ toString (s.entrances.length + 1) }
  setMode "select" { s with entrances := s.entrances ++ [e] }

/-! ## Deletion and keyboard handling -/

/-- The zone write `deleteSelectedZone` performs on the selected slot. -/
def disableZone (z : Zone) : Zone :=
  { z with enabled := false, shapeType := "rectangle", vertices := none }

/-- `deleteSelectedZone`: disable the slot, reset its shape fields, clear the
    selection index.  The registry is fixed-length so the index is present. -/
def deleteSelectedZone (s : DState) : DState :=
  match s.selZone with
  | none => s
  | some i => { s with zones := updateAt s.zones i disableZone, selZone := none }

/-- `deleteSelectedFurniture`: splice the item out, clear the index. -/
def deleteSelectedFurniture (s : DState) : DState :=
  match s.selFurn with
  | none => s
  | some i => { s with furniture := s.furniture.eraseIdx i, selFurn := none }

/-- `deleteSelectedEntrance`: splice the item out, clear the index. -/
def deleteSelectedEntrance (s : DState) : DState :=
  match s.selEnt with
  | none => s
  | some i => { s with entrances := s.entrances.eraseIdx i, selEnt := none }

/-- `deleteSelectedEdge`: splice the item out, clear the index.  (Reachable
    only from the host UI's delete action, not from the key handler.) -/
def deleteSelectedEdge (s : DState) : DState :=
  match s.selEdge with
  | none => s
  | some i => { s with edges := s.edges.eraseIdx i, selEdge := none }

/-- `handleKeyDown`: Escape aborts the gesture and returns to select mode;
    Delete/Backspace in select mode removes the selected entrance, else the
    selected furniture, else the selected zone.  A selected edge is not
    handled here. -/
def handleKeyDown (key : String) (s : DState) : DState :=
  let s := if key = "Escape" then setMode "select" (resetDrawingState s) else s
  if key = "Delete" ∨ key = "Backspace" then
    if s.mode = "select" then
      if s.selEnt.isSome then deleteSelectedEntrance s
      else if s.selFurn.isSome then deleteSelectedFurniture s
      else if s.selZone.isSome then deleteSelectedZone s
      else s
    else s
  else s

/-! ## Select-mode pointer-down

`handleSelectMouseDown` is a cascade of early-return branches.  Each phase
below models one block of the source; `some s'` is an early `return` with the
new state, `none` falls through to the next block, and `Except.error` marks
where the JS would throw a `TypeError` (an unguarded property read on
`undefined`). -/

/-- Index of the last list element satisfying `p` — the source's reverse `for`
    loops (`for (let i = list.length - 1; i >= 0; i--)`). -/
def lastIdxWhere (p : α → Bool) (l : List α) : Option Nat :=
  match l.reverse.findIdx? p with
  | some j => some (l.length - 1 - j)
  | none => none

/-- Selected-furniture block: handle hit starts a resize; otherwise the source
    calls `isPointInFurniture` on the possibly-`undefined` item (only
    `getFurnitureHandleAtPoint` has a null guard), which throws when the
    selection index is stale. -/
def selPhaseFurniture (cfg : Cfg) (r : Rot) (cosd sind : ℚ → ℚ)
    (cc sc : Pt) (s : DState) : Except String (Option DState) :=
  match s.selFurn with
  | none => .ok none
  | some i =>
    let f? := s.furniture[i]?
    match getFurnitureHandleAtPoint cfg r cosd sind cc.x cc.y f? with
    | some ht =>
      .ok (some { s with selectedHandle := some ⟨"furniture", ht, none, none⟩,
                         isDragging := true, startPoint := some sc })
    | none =>
      match f? with
      | none => .error "TypeError: cannot read width of undefined"
      | some f =>
        if isPointInFurniture cosd sind sc.x sc.y f then
          .ok (some { s with isDragging := true,
                             dragOffset := ⟨sc.x - f.x, sc.y - f.y⟩ })
        else .ok none

/-- Selected-zone block: `getHandleAtPoint` reads `zone.enabled` without a
    null guard, so a stale zone index would throw; the fixed three-slot
    registry keeps the index in range in practice. -/
def selPhaseZone (cfg : Cfg) (r : Rot) (cc sc : Pt) (s : DState) :
    Except String (Option DState) :=
  match s.selZone with
  | none => .ok none
  | some i =>
    match s.zones[i]? with
    | none => .error "TypeError: cannot read enabled of undefined"
    | some z =>
      match getHandleAtPoint cfg r cc.x cc.y z with
      | some hnd =>
        .ok (some { s with selectedHandle := some ⟨"zone", hnd.htype, hnd.updateX, hnd.updateY⟩,
                           isDragging := true, startPoint := some sc })
      | none =>
        if z.enabled && isPointInZone sc.x sc.y z then
          let corners := getZoneCorners z
          .ok (some { s with isDragging := true,
                             dragOffset := ⟨sc.x - (corners.x1 + corners.x2) / 2,
                                            sc.y - (corners.y1 + corners.y2) / 2⟩ })
        else .ok none

/-- Selected-entrance block (`if (entrance && ...)` — fully guarded). -/
def selPhaseEntrance (sc : Pt) (s : DState) : Option DState :=
  match s.selEnt with
  | none => none
  | some i =>
    match s.entrances[i]? with
    | none => none
    | some e =>
      if isPointInEntrance sc.x sc.y e then
        some { s with isDragging := true, dragOffset := ⟨sc.x - e.x, sc.y - e.y⟩ }
      else none

/-- Selected-edge block (`getEdgeHandleAtPoint` guards null; the body test is
    `if (edge && ...)` — fully guarded). -/
def selPhaseEdge (cfg : Cfg) (r : Rot) (cc sc : Pt) (s : DState) : Option DState :=
  match s.selEdge with
  | none => none
  | some i =>
    let e? := s.edges[i]?
    match getEdgeHandleAtPoint cfg r cc.x cc.y e? with
    | some hnd =>
      some { s with selectedHandle := some ⟨"edge", hnd.htype, hnd.updateX, hnd.updateY⟩,
                    isDragging := true, startPoint := some sc }
    | none =>
      match e? with
      | none => none
      | some e =>
        if isPointInEdge sc.x sc.y e then
          some { s with isDragging := true,
                        dragOffset := ⟨sc.x - (e.x1 + e.x2) / 2, sc.y - (e.y1 + e.y2) / 2⟩ }
        else none

/-- The four hit-test loops (entrances and furniture topmost-first, zones in
    slot order, edges behind) followed by the empty-space deselect-all. -/
def selectionScan (cosd sind : ℚ → ℚ) (sc : Pt) (s : DState) : DState :=
  match lastIdxWhere (fun e => isPointInEntrance sc.x sc.y e) s.entrances with
  | some i => { clearOtherSelections (some "entrance") s with selEnt := some i }
  | none =>
  match lastIdxWhere (fun f => isPointInFurniture cosd sind sc.x sc.y f) s.furniture with
  | some i => { clearOtherSelections (some "furniture") s with selFurn := some i }
  | none =>
  match s.zones.findIdx? (fun z => isPointInZone sc.x sc.y z) with
  | some i => { clearOtherSelections (some "zone") s with selZone := some i }
  | none =>
  match lastIdxWhere (fun e => isPointInEdge sc.x sc.y e) s.edges with
  | some i => { clearOtherSelections (some "edge") s with selEdge := some i }
  | none => clearOtherSelections none s

/-- `handleSelectMouseDown`: the full cascade. -/
def handleSelectMouseDown (cfg : Cfg) (r : Rot) (cosd sind : ℚ → ℚ)
    (cc sc : Pt) (s : DState) : Except String DState := do
  match ← selPhaseFurniture cfg r cosd sind cc sc s with
  | some s' => return s'
  | none =>
  match ← selPhaseZone cfg r cc sc s with
  | some s' => return s'
  | none =>
  match selPhaseEntrance sc s with
  | some s' => return s'
  | none =>
  match selPhaseEdge cfg r cc sc s with
  | some s' => return s'
  | none => return selectionScan cosd sind sc s

/-! ## Concrete states for witnesses and counterexamples -/

/-- The zone slot value main.js initialises the registry with. -/
def zoneDefault : Zone :=
  { enabled := false, shapeType := "rectangle", x1 := -1500, y1 := 0,
    x2 := 1500, y2 := 3000, vertices := none, zoneType := some "detection" }

/-- An enabled copy of the default slot. -/
def zoneOn : Zone := { zoneDefault with enabled := true }

/-- The freshly initialised editor state: three disabled zone slots, empty
    annotation lists, select mode. -/
def emptyState : DState :=
  { zones := [zoneDefault, zoneDefault, zoneDefault],
    furniture := [], entrances := [], edges := [],
    selZone := none, selFurn := none, selEnt := none, selEdge := none,
    selectedHandle := none, isDragging := false, isDrawing := false,
    mode := "select", startPoint := none, currentPoint := none,
    polygonVertices := [], dragOffset := ⟨0, 0⟩, placingFurniture := none }

/-- A state whose three zone slots are all enabled. -/
def fullState : DState :=
  { emptyState with zones := [zoneOn, zoneOn, zoneOn] }

/-- A five-slot registry with slots 0..2 enabled and slots 3..4 free, as the
    five-slot variant of main.js would hold it. -/
def fiveSlotZones : List Zone :=
  [zoneOn, zoneOn, zoneOn, zoneDefault, zoneDefault]

/-! ## C1 — zone slot scan and capacity -/

/-- C1 counterexample: with five slots of which 0..2 are enabled and slot 3 is
    `enabled:false`, the claim predicts the scan finds slot 3; the code scans
    only 0..2, reports the capacity error, and leaves the registry unchanged. -/
theorem slot_scan_misses_free_slot_three :
    getNextAvailableZoneSlot fiveSlotZones = none ∧
    (fiveSlotZones[3]?).map Zone.enabled = some false ∧
    handleRectangleMouseDown { emptyState with zones := fiveSlotZones } ⟨0, 0⟩ =
      ({ emptyState with zones := fiveSlotZones },
       some "Maximum 3 zones. Delete one to add another.") := by
  refine ⟨rfl, rfl, ?_⟩
  rfl

/-- C1 amended: zone creation scans the fixed slots 0..2 for the first
    `enabled:false` slot; when none of the three is free, starting a rectangle
    draw reports the capacity error through the error sink and returns the
    state unchanged. -/
theorem zone_capacity_three_slots (s : DState) (p : Pt) :
    (slotFree s.zones 0 = false → slotFree s.zones 1 = false →
      slotFree s.zones 2 = false →
      handleRectangleMouseDown s p =
        (s, some "Maximum 3 zones. Delete one to add another.")) ∧
    (slotFree s.zones 0 = true → getNextAvailableZoneSlot s.zones = some 0) ∧
    (slotFree s.zones 0 = false → slotFree s.zones 1 = true →
      getNextAvailableZoneSlot s.zones = some 1) ∧
    (slotFree s.zones 0 = false → slotFree s.zones 1 = false →
      slotFree s.zones 2 = true → getNextAvailableZoneSlot s.zones = some 2) := by
  refine ⟨fun h0 h1 h2 => ?_, fun h0 => ?_, fun h0 h1 => ?_, fun h0 h1 h2 => ?_⟩ <;>
    simp [handleRectangleMouseDown, getNextAvailableZoneSlot, *]

/-- C1 witness: three enabled slots trigger the capacity error with the
    registry untouched. -/
theorem zone_capacity_three_slots_witness :
    slotFree fullState.zones 0 = false ∧
    slotFree fullState.zones 1 = false ∧
    slotFree fullState.zones 2 = false ∧
    handleRectangleMouseDown fullState ⟨0, 0⟩ =
      (fullState, some "Maximum 3 zones. Delete one to add another.") :=
  ⟨rfl, rfl, rfl, (zone_capacity_three_slots fullState ⟨0, 0⟩).1 rfl rfl rfl⟩

/-! ## C4 — box normalization on write -/

/-- A zone with a drag handle available: enabled rectangle (0,0)–(1000,1000). -/
def zoneA : Zone :=
  { enabled := true, shapeType := "rectangle", x1 := 0, y1 := 0,
    x2 := 1000, y2 := 1000, vertices := none, zoneType := some "detection" }

theorem jround_mono {a b : ℚ} (h : a ≤ b) : jround a ≤ jround b :=
  Int.floor_le_floor (by linarith)

theorem snap100_mono {a b : ℚ} (h : a ≤ b) : snap100 a ≤ snap100 b := by
  unfold snap100
  have h1 : a / 100 ≤ b / 100 := by linarith
  have h2 : (jround (a / 100) : ℚ) ≤ (jround (b / 100) : ℚ) :=
    Int.cast_le.mpr (jround_mono h1)
  linarith

theorem foldl_min_le_foldl_max (g : Pt → ℚ) (vs : List Pt) :
    ∀ a b : ℚ, a ≤ b →
      vs.foldl (fun x q => min x (g q)) a ≤ vs.foldl (fun x q => max x (g q)) b := by
  induction vs with
  | nil => intro a b h; simpa using h
  | cons v t ih =>
    intro a b h
    exact ih _ _ (le_trans (min_le_left a (g v)) (le_trans h (le_max_left b (g v))))

/-- C4 counterexample: dragging the east handle (`updateX = x2`) of the
    enabled zone (0,0)–(1000,1000) to sensor x = −2000 commits `x2 = −2000 <
    x1 = 0` — the resize write is not normalized. -/
theorem resizeZone_denormalizes :
    (resizeZone zoneA (some .X2) none ⟨-2000, 500⟩).x2 <
      (resizeZone zoneA (some .X2) none ⟨-2000, 500⟩).x1 := by
  norm_num [resizeZone, setXField, setYField, clamp, snap100, jround, zoneA]

/-- C4 amended: every create (rectangle, polygon, edge) and every whole-shape
    move commits a normalized box, but a handle resize writes the raw handle
    field and can leave `x1 > x2` or `y1 > y2`. -/
theorem creates_and_moves_normalize (s : DState) (start p off : Pt) (z : Zone)
    (e : Edge) (eid : String) :
    ((∀ z' ∈ s.zones, z'.enabled = true → z'.x1 ≤ z'.x2 ∧ z'.y1 ≤ z'.y2) →
      ∀ z' ∈ (finishRectangle s start p).1.zones, z'.enabled = true →
        z'.x1 ≤ z'.x2 ∧ z'.y1 ≤ z'.y2) ∧
    ((∀ z' ∈ s.zones, z'.enabled = true → z'.x1 ≤ z'.x2 ∧ z'.y1 ≤ z'.y2) →
      ∀ z' ∈ (finishPolygon s).1.zones, z'.enabled = true →
        z'.x1 ≤ z'.x2 ∧ z'.y1 ≤ z'.y2) ∧
    ((∀ e' ∈ s.edges, e'.x1 ≤ e'.x2 ∧ e'.y1 ≤ e'.y2) →
      ∀ e' ∈ (completeEdgeDrawing s start p eid).edges,
        e'.x1 ≤ e'.x2 ∧ e'.y1 ≤ e'.y2) ∧
    ((moveZone z off p).x1 ≤ (moveZone z off p).x2 ∧
     (moveZone z off p).y1 ≤ (moveZone z off p).y2) ∧
    ((moveEdge e off p).x1 ≤ (moveEdge e off p).x2 ∧
     (moveEdge e off p).y1 ≤ (moveEdge e off p).y2) ∧
    (z.enabled = true →
      (moveZoneToPosition z p).x1 ≤ (moveZoneToPosition z p).x2 ∧
      (moveZoneToPosition z p).y1 ≤ (moveZoneToPosition z p).y2) := by
  refine ⟨?_, ?_, ?_, ?_, ?_, ?_⟩
  · -- finishRectangle
    intro hinv z' hz' hen
    unfold finishRectangle at hz'
    cases hslot : getNextAvailableZoneSlot s.zones with
    | none => simp only [hslot] at hz'; exact hinv z' hz' hen
    | some slot =>
      simp only [hslot] at hz'
      by_cases hsmall : |snap100 p.x - snap100 start.x| < 200 ∨
          |snap100 p.y - snap100 start.y| < 200
      · rw [if_pos hsmall] at hz'
        exact hinv z' hz' hen
      · rw [if_neg hsmall] at hz'
        simp only [setMode, resetDrawingState, updateAt] at hz'
        cases hidx : s.zones[slot]? with
        | none => rw [hidx] at hz'; exact hinv z' hz' hen
        | some z0 =>
          rw [hidx] at hz'
          rcases List.mem_or_eq_of_mem_set hz' with hmem | heq
          · exact hinv z' hmem hen
          · subst heq
            exact ⟨min_le_max, min_le_max⟩
  · -- finishPolygon
    intro hinv z' hz' hen
    unfold finishPolygon at hz'
    cases hslot : getNextAvailableZoneSlot s.zones with
    | none => simp only [hslot] at hz'; exact hinv z' hz' hen
    | some slot =>
      simp only [hslot] at hz'
      cases hverts : s.polygonVertices with
      | nil =>
        simp only [hverts, resetDrawingState] at hz'
        exact hinv z' hz' hen
      | cons v vs =>
        simp only [hverts] at hz'
        by_cases hlen : (v :: vs).length < 3
        · rw [if_pos hlen] at hz'
          simp only [resetDrawingState] at hz'
          exact hinv z' hz' hen
        · rw [if_neg hlen] at hz'
          simp only [setMode, resetDrawingState, updateAt] at hz'
          cases hidx : s.zones[slot]? with
          | none => rw [hidx] at hz'; exact hinv z' hz' hen
          | some z0 =>
            rw [hidx] at hz'
            rcases List.mem_or_eq_of_mem_set hz' with hmem | heq
            · exact hinv z' hmem hen
            · subst heq
              refine ⟨?_, ?_⟩
              · exact foldl_min_le_foldl_max (fun q => q.x) vs v.x v.x le_rfl
              · exact foldl_min_le_foldl_max (fun q => q.y) vs v.y v.y le_rfl
  · -- completeEdgeDrawing
    intro hinv e' he'
    unfold completeEdgeDrawing at he'
    by_cases hsmall : |snap100 p.x - snap100 start.x| < 100 ∨
        |snap100 p.y - snap100 start.y| < 100
    · simp only [if_pos hsmall, resetDrawingState] at he'
      exact hinv e' he'
    · simp only [if_neg hsmall, setMode, resetDrawingState, List.mem_append,
        List.mem_singleton] at he'
      rcases he' with hmem | heq
      · exact hinv e' hmem
      · subst heq
        exact ⟨min_le_max, min_le_max⟩
  · -- moveZone
    have hW : (getZoneCorners z).x1 ≤ (getZoneCorners z).x2 := min_le_max
    have hH : (getZoneCorners z).y1 ≤ (getZoneCorners z).y2 := min_le_max
    constructor <;>
      · dsimp only [moveZone]
        split_ifs <;>
          · dsimp only
            apply snap100_mono
            linarith
  · -- moveEdge
    have hx := abs_nonneg (e.x2 - e.x1)
    have hy := abs_nonneg (e.y2 - e.y1)
    constructor <;>
      · dsimp only [moveEdge]
        linarith
  · -- moveZoneToPosition
    intro hen
    have hx := abs_nonneg (z.x2 - z.x1)
    have hy := abs_nonneg (z.y2 - z.y1)
    constructor <;>
      · simp only [moveZoneToPosition, hen, Bool.not_true, Bool.false_eq_true, if_false]
        linarith

/-- C4 witness: the rectangle-create and explicit-move conclusions evaluated
    on concrete inputs with the hypotheses discharged. -/
theorem creates_and_moves_normalize_witness :
    (∀ z' ∈ (finishRectangle emptyState ⟨0, 0⟩ ⟨300, 300⟩).1.zones,
      z'.enabled = true → z'.x1 ≤ z'.x2 ∧ z'.y1 ≤ z'.y2) ∧
    zoneOn.enabled = true ∧
    (moveZoneToPosition zoneOn ⟨300, 300⟩).x1 ≤ (moveZoneToPosition zoneOn ⟨300, 300⟩).x2 ∧
    (moveZoneToPosition zoneOn ⟨300, 300⟩).y1 ≤ (moveZoneToPosition zoneOn ⟨300, 300⟩).y2 :=
  ⟨(creates_and_moves_normalize emptyState ⟨0, 0⟩ ⟨300, 300⟩ ⟨0, 0⟩ zoneOn
      ⟨"e", 0, 0, 0, 0⟩ "e").1
    (by
      intro z' hz' hen
      simp only [emptyState, List.mem_cons, List.not_mem_nil, or_false] at hz'
      rcases hz' with h | h | h <;> · subst h; simp [zoneDefault] at hen),
   rfl,
   ((creates_and_moves_normalize emptyState ⟨0, 0⟩ ⟨300, 300⟩ ⟨0, 0⟩ zoneOn
      ⟨"e", 0, 0, 0, 0⟩ "e").2.2.2.2.2 rfl).1,
   ((creates_and_moves_normalize emptyState ⟨0, 0⟩ ⟨300, 300⟩ ⟨0, 0⟩ zoneOn
      ⟨"e", 0, 0, 0, 0⟩ "e").2.2.2.2.2 rfl).2⟩

/-! ## C5 — rectangle completion -/

theorem updateAt_getElem?_self {α : Type} {l : List α} {i : Nat} {a : α}
    (h : l[i]? = some a) (f : α → α) : (updateAt l i f)[i]? = some (f a) := by
  have hi : i < l.length := (List.getElem?_eq_some.mp h).1
  simp [updateAt, h, List.getElem?_set_self', hi]

/-- C5: completing a rectangle draw snaps both recorded corners to the 100 mm
    grid, rejects the gesture with the too-small error when either snapped
    dimension is below 200 mm (committing nothing), and otherwise commits the
    normalized snapped box into the free slot with `shapeType = rectangle` and
    `zoneType` defaulted to `detection`; in particular (0,0)–(50,50) is
    rejected and (0,0)–(300,300) is accepted. -/
theorem finishRectangle_spec (s : DState) (start p : Pt) (slot : Nat) (z0 : Zone)
    (hslot : getNextAvailableZoneSlot s.zones = some slot)
    (hz0 : s.zones[slot]? = some z0) :
    ((|snap100 p.x - snap100 start.x| < 200 ∨ |snap100 p.y - snap100 start.y| < 200) →
      finishRectangle s start p =
        (resetDrawingState s, some "Zone too small. Minimum size is 200mm x 200mm.")) ∧
    (¬(|snap100 p.x - snap100 start.x| < 200 ∨ |snap100 p.y - snap100 start.y| < 200) →
      (finishRectangle s start p).2 = none ∧
      (finishRectangle s start p).1.mode = "select" ∧
      (finishRectangle s start p).1.selZone = some slot ∧
      ((finishRectangle s start p).1.zones)[slot]? =
        some { z0 with enabled := true, shapeType := "rectangle",
                       x1 := min (snap100 start.x) (snap100 p.x),
                       y1 := min (snap100 start.y) (snap100 p.y),
                       x2 := max (snap100 start.x) (snap100 p.x),
                       y2 := max (snap100 start.y) (snap100 p.y),
                       vertices := none,
                       zoneType := if z0.zoneType = none then some "detection"
                                   else z0.zoneType }) ∧
    (finishRectangle emptyState ⟨0, 0⟩ ⟨50, 50⟩ =
      (resetDrawingState emptyState, some "Zone too small. Minimum size is 200mm x 200mm.")) ∧
    (((finishRectangle emptyState ⟨0, 0⟩ ⟨300, 300⟩).1.zones)[0]? =
      some { zoneDefault with enabled := true, shapeType := "rectangle",
                              x1 := 0, y1 := 0, x2 := 300, y2 := 300,
                              vertices := none } ∧
     (finishRectangle emptyState ⟨0, 0⟩ ⟨300, 300⟩).2 = none) := by
  have hsnap0 : snap100 (0 : ℚ) = 0 := by norm_num [snap100, jround]
  have hsnap50 : snap100 (50 : ℚ) = 100 := by norm_num [snap100, jround]
  have hsnap300 : snap100 (300 : ℚ) = 300 := by norm_num [snap100, jround]
  have hempty : getNextAvailableZoneSlot emptyState.zones = some 0 := rfl
  have hempty0 : emptyState.zones[0]? = some zoneDefault := rfl
  refine ⟨?_, ?_, ?_, ?_⟩
  · intro hsmall
    unfold finishRectangle
    simp only [hslot, if_pos hsmall]
  · intro hbig
    unfold finishRectangle
    simp only [hslot, if_neg hbig]
    refine ⟨?_, ?_, ?_, ?_⟩
    · trivial
    · simp [setMode, resetDrawingState]
    · simp [setMode, resetDrawingState]
    · simp only [setMode, resetDrawingState]
      rw [updateAt_getElem?_self hz0]
      simp [commitRectZone, min_comm, max_comm]
  · unfold finishRectangle
    simp only [hempty]
    rw [if_pos]
    simp only [Pt.x, Pt.y] at hsnap0 hsnap50 ⊢
    rw [hsnap0, hsnap50]
    norm_num
  · unfold finishRectangle
    simp only [hempty]
    rw [if_neg]
    · simp only [setMode, resetDrawingState]
      refine ⟨?_, ?_⟩
      · rw [updateAt_getElem?_self hempty0]
        norm_num [snap100, jround, commitRectZone, zoneDefault]
      · trivial
    · norm_num [snap100, jround]

/-- C5 witness: the rejection conclusion at the concrete gesture
    (0,0)–(50,50) with all hypotheses discharged. -/
theorem finishRectangle_spec_witness :
    finishRectangle emptyState ⟨0, 0⟩ ⟨50, 50⟩ =
      (resetDrawingState emptyState, some "Zone too small. Minimum size is 200mm x 200mm.") :=
  (finishRectangle_spec emptyState ⟨0, 0⟩ ⟨50, 50⟩ 0 zoneDefault rfl rfl).1
    (by norm_num [snap100, jround])

/-! ## C6 — minimum dimensions -/

/-- A state mid polygon draw with three clicked (already snapped) vertices
    spanning only 100 mm × 100 mm. -/
def polyState : DState :=
  { emptyState with mode := "draw-polygon",
                    polygonVertices := [⟨0, 0⟩, ⟨100, 0⟩, ⟨0, 100⟩] }

/-- C6 counterexample: closing a polygon whose vertices span 100 mm × 100 mm
    commits an enabled zone with both bounding-box dimensions 100 mm < 200 mm
    — polygon creation enforces no minimum dimension. -/
theorem finishPolygon_commits_undersized :
    ((finishPolygon polyState).1.zones)[0]? =
      some { zoneDefault with enabled := true, shapeType := "polygon",
                              vertices := some [⟨0, 0⟩, ⟨100, 0⟩, ⟨0, 100⟩],
                              x1 := 0, y1 := 0, x2 := 100, y2 := 100 } ∧
    (100 : ℚ) - 0 < 200 := by
  refine ⟨?_, by norm_num⟩
  have h0 : polyState.zones[0]? = some zoneDefault := rfl
  unfold finishPolygon
  have hslot : getNextAvailableZoneSlot polyState.zones = some 0 := rfl
  simp only [hslot]
  norm_num [polyState, emptyState, setMode, resetDrawingState, updateAt, zoneDefault]

/-- C6 amended: rectangle-draw completion enforces the 200 mm minimum and
    edge-draw completion enforces the 100 mm minimum on the committed box,
    but polygon completion and handle resizes enforce no minimum. -/
theorem rect_edge_commits_meet_minimums (s : DState) (start p : Pt) (slot : Nat)
    (z0 : Zone) (eid : String)
    (hslot : getNextAvailableZoneSlot s.zones = some slot)
    (hz0 : s.zones[slot]? = some z0) :
    (¬(|snap100 p.x - snap100 start.x| < 200 ∨ |snap100 p.y - snap100 start.y| < 200) →
      ∃ z, ((finishRectangle s start p).1.zones)[slot]? = some z ∧
        z.enabled = true ∧ 200 ≤ z.x2 - z.x1 ∧ 200 ≤ z.y2 - z.y1) ∧
    (¬(|snap100 p.x - snap100 start.x| < 100 ∨ |snap100 p.y - snap100 start.y| < 100) →
      ∃ e, (completeEdgeDrawing s start p eid).edges = s.edges ++ [e] ∧
        100 ≤ e.x2 - e.x1 ∧ 100 ≤ e.y2 - e.y1) := by
  constructor
  · intro hbig
    unfold finishRectangle
    simp only [hslot, if_neg hbig]
    simp only [setMode, resetDrawingState]
    push_neg at hbig
    refine ⟨_, updateAt_getElem?_self hz0 _, rfl, ?_, ?_⟩
    · simp only [commitRectZone]
      rw [max_sub_min_eq_abs]
      exact hbig.1
    · simp only [commitRectZone]
      rw [max_sub_min_eq_abs]
      exact hbig.2
  · intro hbig
    unfold completeEdgeDrawing
    simp only [if_neg hbig, setMode, resetDrawingState]
    push_neg at hbig
    refine ⟨_, rfl, ?_, ?_⟩
    · simp only
      rw [max_sub_min_eq_abs]
      exact hbig.1
    · simp only
      rw [max_sub_min_eq_abs]
      exact hbig.2

/-- C6 witness: the rectangle conclusion at the concrete accepted gesture
    (0,0)–(300,300) with all hypotheses discharged. -/
theorem rect_edge_commits_meet_minimums_witness :
    ∃ z, ((finishRectangle emptyState ⟨0, 0⟩ ⟨300, 300⟩).1.zones)[0]? = some z ∧
      z.enabled = true ∧ 200 ≤ z.x2 - z.x1 ∧ 200 ≤ z.y2 - z.y1 :=
  (rect_edge_commits_meet_minimums emptyState ⟨0, 0⟩ ⟨300, 300⟩ 0 zoneDefault "e"
    rfl rfl).1 (by norm_num [snap100, jround])

/-! ## C8 — placement grid snap -/

theorem jround_near (q : ℚ) : |(jround q : ℚ) - q| ≤ 1 / 2 := by
  have h1 : (jround q : ℚ) ≤ q + 1 / 2 := Int.floor_le (q + 1 / 2)
  have h2 : q + 1 / 2 < (jround q : ℚ) + 1 := Int.lt_floor_add_one (q + 1 / 2)
  rw [abs_le]
  constructor <;> linarith

theorem snap100_near (v : ℚ) : |snap100 v - v| ≤ 50 := by
  have h := jround_near (v / 100)
  rw [abs_le] at h ⊢
  unfold snap100
  constructor <;> · obtain ⟨ha, hb⟩ := h; linarith

/-- A state in which the user is placing a chair. -/
def placingState : DState := { emptyState with placingFurniture := some "chair" }

/-- C8 counterexample: placing furniture with the pointer at sensor
    (150, 150) mm commits x = y = 200 (the nearest **100 mm** multiple), not
    150, which is itself a 50 mm multiple — so the committed coordinate is not
    the nearest 50 mm multiple. -/
theorem furniture_placement_not_50mm :
    (handleFurniturePlacement placingState .r0 ⟨150, 150⟩ "f1").furniture =
      [{ fid := "f1", ftype := "chair", x := 200, y := 200, rotation := 0,
         width := 700, height := 700 }] ∧
    snap50 (150 : ℚ) = 150 ∧ (200 : ℚ) ≠ 150 := by
  refine ⟨?_, ?_, by norm_num⟩
  · norm_num [handleFurniturePlacement, placingState, emptyState, snap100, jround,
      getFurnitureDefaultSize, Rot.deg]
  · norm_num [snap50, jround]

/-- C8 amended: committing a furniture or entrance placement stores the shape
    at the pointer position with each coordinate rounded to the nearest
    multiple of the **100 mm** grid (a multiple of 100, within 50 mm of the
    pointer); entrance placement then returns to select mode. -/
theorem placement_snaps_100mm (s : DState) (r : Rot) (p : Pt) (fid eid t : String)
    (hpf : s.placingFurniture = some t) :
    ((handleFurniturePlacement s r p fid).furniture =
      s.furniture ++ [{ fid := fid, ftype := t, x := snap100 p.x, y := snap100 p.y,
                        rotation := r.deg, width := (getFurnitureDefaultSize t).1,
                        height := (getFurnitureDefaultSize t).2 }]) ∧
    (∃ kx ky : ℤ, snap100 p.x = kx * 100 ∧ snap100 p.y = ky * 100) ∧
    |snap100 p.x - p.x| ≤ 50 ∧ |snap100 p.y - p.y| ≤ 50 ∧
    ((handleEntrancePlacement s p eid).entrances =
      s.entrances ++ [{ eid := eid, x := snap100 p.x, y := snap100 p.y,
                        direction := 0,
                        label := "Entry " ++ toString (s.entrances.length + 1) }]) ∧
    (handleEntrancePlacement s p eid).mode = "select" := by
  refine ⟨?_, ⟨jround (p.x / 100), jround (p.y / 100), rfl, rfl⟩,
    snap100_near p.x, snap100_near p.y, ?_, ?_⟩
  · simp [handleFurniturePlacement, hpf]
  · simp [handleEntrancePlacement, setMode, resetDrawingState]
  · simp [handleEntrancePlacement, setMode, resetDrawingState]

/-- C8 witness: the amended conclusion evaluated at the chair placement with
    the pointer at (150, 150). -/
theorem placement_snaps_100mm_witness :
    (handleFurniturePlacement placingState .r0 ⟨150, 150⟩ "f1").furniture =
      placingState.furniture ++
        [{ fid := "f1", ftype := "chair",
           x := snap100 (150 : ℚ), y := snap100 (150 : ℚ), rotation := Rot.r0.deg,
           width := (getFurnitureDefaultSize "chair").1,
           height := (getFurnitureDefaultSize "chair").2 }] :=
  (placement_snaps_100mm placingState .r0 ⟨150, 150⟩ "f1" "e1" "chair" rfl).1

/-! ## C9 — Delete/Backspace handling -/

/-- A select-mode state with one edge drawn and selected. -/
def edgeSelState : DState :=
  { emptyState with edges := [⟨"e1", 0, 0, 1000, 1000⟩], selEdge := some 0 }

/-- C9 counterexample: with an edge selected, Delete leaves the state
    untouched — the key handler never consults the edge selection, so the
    selected edge is neither spliced out nor deselected. -/
theorem delete_key_ignores_edge :
    handleKeyDown "Delete" edgeSelState = edgeSelState ∧
    edgeSelState.selEdge = some 0 ∧
    edgeSelState.edges = [⟨"e1", 0, 0, 1000, 1000⟩] :=
  ⟨rfl, rfl, rfl⟩

/-- C9 amended: Delete/Backspace in select mode removes the selected
    entrance, else the selected furniture (both spliced from their list),
    else disables the selected zone (slot retained), clearing the matching
    index — but a selected edge is not removed by the key handler. -/
theorem delete_key_behavior (k : String) (s : DState)
    (hk : k = "Delete" ∨ k = "Backspace") (hmode : s.mode = "select") :
    (∀ i, s.selEnt = some i →
      handleKeyDown k s =
        { s with entrances := s.entrances.eraseIdx i, selEnt := none }) ∧
    (s.selEnt = none → ∀ i, s.selFurn = some i →
      handleKeyDown k s =
        { s with furniture := s.furniture.eraseIdx i, selFurn := none }) ∧
    (s.selEnt = none → s.selFurn = none → ∀ i, s.selZone = some i →
      handleKeyDown k s =
        { s with zones := updateAt s.zones i disableZone, selZone := none }) ∧
    (s.selEnt = none → s.selFurn = none → s.selZone = none →
      handleKeyDown k s = s) := by
  have hk1 : k ≠ "Escape" := by rcases hk with h | h <;> subst h <;> decide
  refine ⟨?_, ?_, ?_, ?_⟩
  · intro i hi
    simp only [handleKeyDown, if_neg hk1, if_pos hk, if_pos hmode, hi,
      Option.isSome_some, if_pos, deleteSelectedEntrance]
  · intro h1 i hi
    simp only [handleKeyDown, if_neg hk1, if_pos hk, if_pos hmode, h1, hi,
      Option.isSome_none, Option.isSome_some, Bool.false_eq_true, if_false, if_pos,
      deleteSelectedFurniture]
  · intro h1 h2 i hi
    simp only [handleKeyDown, if_neg hk1, if_pos hk, if_pos hmode, h1, h2, hi,
      Option.isSome_none, Option.isSome_some, Bool.false_eq_true, if_false, if_pos,
      deleteSelectedZone]
  · intro h1 h2 h3
    simp only [handleKeyDown, if_neg hk1, if_pos hk, if_pos hmode, h1, h2, h3,
      Option.isSome_none, Bool.false_eq_true, if_false]

/-- A select-mode state with one entrance placed and selected. -/
def entSelState : DState :=
  { emptyState with entrances := [⟨"n1", 0, 0, 0, "Entry 1"⟩], selEnt := some 0 }

/-- C9 witness: Delete on a selected entrance splices it out and clears the
    index. -/
theorem delete_key_behavior_witness :
    handleKeyDown "Delete" entSelState =
      { entSelState with entrances := entSelState.entrances.eraseIdx 0,
                         selEnt := none } :=
  (delete_key_behavior "Delete" entSelState (Or.inl rfl) rfl).1 0 rfl

/-! ## C10 — single selection invariant; C7 — stale indices -/

/-- Number of non-null selection indices. -/
def selCount (s : DState) : ℕ :=
  (if s.selZone.isSome then 1 else 0) + (if s.selFurn.isSome then 1 else 0) +
  (if s.selEnt.isSome then 1 else 0) + (if s.selEdge.isSome then 1 else 0)

theorem selCount_congr {s t : DState} (hz : t.selZone = s.selZone)
    (hf : t.selFurn = s.selFurn) (he : t.selEnt = s.selEnt)
    (hd : t.selEdge = s.selEdge) : selCount t = selCount s := by
  simp [selCount, hz, hf, he, hd]

theorem clearOther_entrance (s : DState) :
    clearOtherSelections (some "entrance") s =
      { s with selZone := none, selFurn := none, selEdge := none } := rfl

theorem clearOther_furniture (s : DState) :
    clearOtherSelections (some "furniture") s =
      { s with selZone := none, selEnt := none, selEdge := none } := rfl

theorem clearOther_zone (s : DState) :
    clearOtherSelections (some "zone") s =
      { s with selFurn := none, selEnt := none, selEdge := none } := rfl

theorem clearOther_edge (s : DState) :
    clearOtherSelections (some "edge") s =
      { s with selZone := none, selFurn := none, selEnt := none } := rfl

theorem clearOther_none (s : DState) :
    clearOtherSelections none s =
      { s with selZone := none, selFurn := none, selEnt := none,
               selEdge := none } := rfl

theorem selPhaseFurniture_preserves {cfg : Cfg} {r : Rot} {cosd sind : ℚ → ℚ}
    {cc sc : Pt} {s s' : DState}
    (h : selPhaseFurniture cfg r cosd sind cc sc s = .ok (some s')) :
    s'.selZone = s.selZone ∧ s'.selFurn = s.selFurn ∧
    s'.selEnt = s.selEnt ∧ s'.selEdge = s.selEdge := by
  unfold selPhaseFurniture at h
  cases hsel : s.selFurn with
  | none => simp only [hsel] at h; simp at h
  | some i =>
    simp only [hsel] at h
    cases hh : getFurnitureHandleAtPoint cfg r cosd sind cc.x cc.y s.furniture[i]? with
    | some ht =>
      simp only [hh] at h
      simp only [Except.ok.injEq, Option.some.injEq] at h
      subst h
      simp_all
    | none =>
      simp only [hh] at h
      cases hfq : s.furniture[i]? with
      | none => simp only [hfq] at h; simp at h
      | some f =>
        simp only [hfq] at h
        by_cases hp : isPointInFurniture cosd sind sc.x sc.y f = true
        · rw [if_pos hp] at h
          simp only [Except.ok.injEq, Option.some.injEq] at h
          subst h
          simp_all
        · rw [if_neg hp] at h; simp at h

theorem selPhaseZone_preserves {cfg : Cfg} {r : Rot} {cc sc : Pt} {s s' : DState}
    (h : selPhaseZone cfg r cc sc s = .ok (some s')) :
    s'.selZone = s.selZone ∧ s'.selFurn = s.selFurn ∧
    s'.selEnt = s.selEnt ∧ s'.selEdge = s.selEdge := by
  unfold selPhaseZone at h
  cases hsel : s.selZone with
  | none => simp only [hsel] at h; simp at h
  | some i =>
    simp only [hsel] at h
    cases hzq : s.zones[i]? with
    | none => simp only [hzq] at h; simp at h
    | some z =>
      simp only [hzq] at h
      cases hh : getHandleAtPoint cfg r cc.x cc.y z with
      | some hnd =>
        simp only [hh] at h
        simp only [Except.ok.injEq, Option.some.injEq] at h
        subst h
        simp_all
      | none =>
        simp only [hh] at h
        by_cases hp : (z.enabled && isPointInZone sc.x sc.y z) = true
        · rw [if_pos hp] at h
          simp only [Except.ok.injEq, Option.some.injEq] at h
          subst h
          simp_all
        · rw [if_neg hp] at h; simp at h

theorem selPhaseEntrance_preserves {sc : Pt} {s s' : DState}
    (h : selPhaseEntrance sc s = some s') :
    s'.selZone = s.selZone ∧ s'.selFurn = s.selFurn ∧
    s'.selEnt = s.selEnt ∧ s'.selEdge = s.selEdge := by
  unfold selPhaseEntrance at h
  cases hsel : s.selEnt with
  | none => simp only [hsel] at h; simp at h
  | some i =>
    simp only [hsel] at h
    cases heq : s.entrances[i]? with
    | none => simp only [heq] at h; simp at h
    | some e =>
      simp only [heq] at h
      by_cases hp : isPointInEntrance sc.x sc.y e = true
      · rw [if_pos hp] at h
        simp only [Option.some.injEq] at h
        subst h
        simp_all
      · rw [if_neg hp] at h; simp at h

theorem selPhaseEdge_preserves {cfg : Cfg} {r : Rot} {cc sc : Pt} {s s' : DState}
    (h : selPhaseEdge cfg r cc sc s = some s') :
    s'.selZone = s.selZone ∧ s'.selFurn = s.selFurn ∧
    s'.selEnt = s.selEnt ∧ s'.selEdge = s.selEdge := by
  unfold selPhaseEdge at h
  cases hsel : s.selEdge with
  | none => simp only [hsel] at h; simp at h
  | some i =>
    simp only [hsel] at h
    cases hh : getEdgeHandleAtPoint cfg r cc.x cc.y s.edges[i]? with
    | some hnd =>
      simp only [hh] at h
      simp only [Option.some.injEq] at h
      subst h
      simp_all
    | none =>
      simp only [hh] at h
      cases heq : s.edges[i]? with
      | none => simp only [heq] at h; simp at h
      | some e =>
        simp only [heq] at h
        by_cases hp : isPointInEdge sc.x sc.y e = true
        · rw [if_pos hp] at h
          simp only [Option.some.injEq] at h
          subst h
          simp_all
        · rw [if_neg hp] at h; simp at h

theorem selectionScan_selCount (cosd sind : ℚ → ℚ) (sc : Pt) (s : DState) :
    selCount (selectionScan cosd sind sc s) ≤ 1 := by
  unfold selectionScan
  cases lastIdxWhere (fun e => isPointInEntrance sc.x sc.y e) s.entrances with
  | some i => rw [clearOther_entrance]; simp [selCount]
  | none =>
    cases lastIdxWhere (fun f => isPointInFurniture cosd sind sc.x sc.y f) s.furniture with
    | some i => rw [clearOther_furniture]; simp [selCount]
    | none =>
      cases s.zones.findIdx? (fun z => isPointInZone sc.x sc.y z) with
      | some i => rw [clearOther_zone]; simp [selCount]
      | none =>
        cases lastIdxWhere (fun e => isPointInEdge sc.x sc.y e) s.edges with
        | some i => rw [clearOther_edge]; simp [selCount]
        | none => rw [clearOther_none]; simp [selCount]

/-- C10 amended: pointer-down selection handling preserves the at-most-one
    invariant — every early-return drag/resize branch leaves the selection
    indices untouched, and the hit-test scan always ends with at most one
    index set (clearing all others) — but the commit of a draw gesture sets
    the zone selection without clearing the other types. -/
theorem select_mousedown_single_selection (cfg : Cfg) (r : Rot)
    (cosd sind : ℚ → ℚ) (cc sc : Pt) (s s' : DState)
    (hcount : selCount s ≤ 1)
    (hok : handleSelectMouseDown cfg r cosd sind cc sc s = .ok s') :
    selCount s' ≤ 1 := by
  unfold handleSelectMouseDown at hok
  cases h1 : selPhaseFurniture cfg r cosd sind cc sc s with
  | error e => rw [h1] at hok; simp [Bind.bind, Except.bind] at hok
  | ok o1 =>
    rw [h1] at hok
    simp only [Bind.bind, Except.bind] at hok
    cases o1 with
    | some s1 =>
      simp only [pure, Except.pure, Except.ok.injEq] at hok
      subst hok
      obtain ⟨hz, hf, he, hd⟩ := selPhaseFurniture_preserves h1
      rw [selCount_congr hz hf he hd]
      exact hcount
    | none =>
      cases h2 : selPhaseZone cfg r cc sc s with
      | error e => rw [h2] at hok; simp [Bind.bind, Except.bind] at hok
      | ok o2 =>
        rw [h2] at hok
        simp only [Bind.bind, Except.bind] at hok
        cases o2 with
        | some s2 =>
          simp only [pure, Except.pure, Except.ok.injEq] at hok
          subst hok
          obtain ⟨hz, hf, he, hd⟩ := selPhaseZone_preserves h2
          rw [selCount_congr hz hf he hd]
          exact hcount
        | none =>
          cases h3 : selPhaseEntrance sc s with
          | some s3 =>
            rw [h3] at hok
            simp only [pure, Except.pure, Except.ok.injEq] at hok
            subst hok
            obtain ⟨hz, hf, he, hd⟩ := selPhaseEntrance_preserves h3
            rw [selCount_congr hz hf he hd]
            exact hcount
          | none =>
            rw [h3] at hok
            cases h4 : selPhaseEdge cfg r cc sc s with
            | some s4 =>
              rw [h4] at hok
              simp only [pure, Except.pure, Except.ok.injEq] at hok
              subst hok
              obtain ⟨hz, hf, he, hd⟩ := selPhaseEdge_preserves h4
              rw [selCount_congr hz hf he hd]
              exact hcount
            | none =>
              rw [h4] at hok
              simp only [pure, Except.pure, Except.ok.injEq] at hok
              subst hok
              exact selectionScan_selCount cosd sind sc s

/-- C10 witness: a click on empty space from the fresh state stays within the
    invariant. -/
theorem select_mousedown_single_selection_witness :
    selCount emptyState ≤ 1 ∧
    selCount (clearOtherSelections none emptyState) ≤ 1 :=
  ⟨by norm_num [selCount, emptyState],
   select_mousedown_single_selection ⟨600, 600⟩ .r0 (fun _ => 1) (fun _ => 0)
     ⟨0, 0⟩ ⟨0, 0⟩ emptyState (clearOtherSelections none emptyState)
     (by norm_num [selCount, emptyState]) rfl⟩

/-- A draw-rectangle state entered while a furniture item is still selected
    (mode switches preserve selection indices). -/
def furnSelState : DState :=
  { emptyState with furniture := [⟨"f1", "chair", 2000, 5000, 0, 700, 700⟩],
                    selFurn := some 0, mode := "draw-rectangle" }

/-- C10 counterexample: committing a rectangle draw while furniture is
    selected ends with both the new zone and the furniture selected — two
    non-null selection indices. -/
theorem finishRectangle_double_selection :
    (finishRectangle furnSelState ⟨0, 0⟩ ⟨300, 300⟩).1.selZone = some 0 ∧
    (finishRectangle furnSelState ⟨0, 0⟩ ⟨300, 300⟩).1.selFurn = some 0 ∧
    selCount (finishRectangle furnSelState ⟨0, 0⟩ ⟨300, 300⟩).1 = 2 := by
  norm_num [finishRectangle, furnSelState, emptyState, getNextAvailableZoneSlot,
    slotFree, snap100, jround, setMode, resetDrawingState, updateAt, selCount,
    zoneDefault, commitRectZone]

/-- A select-mode state whose furniture selection index is stale: it points at
    slot 0 while the furniture list is empty. -/
def staleFurnState : DState := { emptyState with selFurn := some 0 }

/-- C7: with a stale furniture selection index, a select-mode pointer-down
    reaches `isPointInFurniture` on the missing item (only the handle lookup
    is null-guarded) and throws instead of being a no-op. -/
theorem stale_furniture_selection_crashes :
    staleFurnState.furniture = [] ∧ staleFurnState.selFurn = some 0 ∧
    handleSelectMouseDown ⟨600, 600⟩ .r0 (fun _ => 1) (fun _ => 0)
        ⟨0, 0⟩ ⟨0, 0⟩ staleFurnState =
      .error "TypeError: cannot read width of undefined" :=
  ⟨rfl, rfl, rfl⟩

end PresenceZones
